import Mathlib

/-!
Verification of the Eikon server gateway (src/app/main.py): a shallow
embedding of the access guard, the quota and envelope tracker, and the
request handlers, together with proofs of the specified properties.

Stateful Python globals (REQUEST_COUNTER, PREVIOUS_DATE) are modelled by
explicit state passing: each operation takes the quota state and returns
the updated state. The vendor SDK (eikon) is out of scope per the spec;
its outcome is an input to each handler, either a result value or a
raised failure message.
-/

namespace EikonServer

/-- A calendar date as Python datetime.date exposes it: year, month, day. -/
structure Date where
  year : Nat
  month : Nat
  day : Nat
deriving DecidableEq, Repr

/-- Gregorian leap-year test, as datetime uses for date arithmetic. -/
def isLeapYear (y : Nat) : Bool :=
  (y % 4 == 0 && y % 100 != 0) || y % 400 == 0

/-- Number of days of month m in year y (Gregorian calendar). -/
def daysInMonth (y m : Nat) : Nat :=
  if m = 2 then (if isLeapYear y then 29 else 28)
  else if m = 4 ∨ m = 6 ∨ m = 9 ∨ m = 11 then 30
  else 31

/-- A date is valid when its month and day are in range. -/
def Date.valid (d : Date) : Prop :=
  1 ≤ d.month ∧ d.month ≤ 12 ∧ 1 ≤ d.day ∧ d.day ≤ daysInMonth d.year d.month

instance (d : Date) : Decidable d.valid := by
  unfold Date.valid; infer_instance

/-- The calendar day before d, i.e. d + timedelta(days=-1) in main.py line 22. -/
def Date.yesterday (d : Date) : Date :=
  if 1 < d.day then ⟨d.year, d.month, d.day - 1⟩
  else if 1 < d.month then ⟨d.year, d.month - 1, daysInMonth d.year (d.month - 1)⟩
  else ⟨d.year - 1, 12, 31⟩

/-- MAXIMUM_NUMBER_OF_REQUESTS (main.py line 21). -/
def MAXIMUM_NUMBER_OF_REQUESTS : Nat := 10000

/-- The process-wide quota state: the module globals PREVIOUS_DATE and
REQUEST_COUNTER of main.py (lines 22-23). -/
structure QuotaState where
  previous_date : Date
  request_counter : Nat
deriving DecidableEq, Repr

/-- The quota state at process startup (main.py lines 22-23): the counter
starts at the limit and the stored date is the day before startup. -/
def initial_state (startup : Date) : QuotaState :=
  ⟨startup.yesterday, MAXIMUM_NUMBER_OF_REQUESTS⟩

/-- A JSON-like scalar cell value. -/
inductive Cell where
  | null
  | int (n : Int)
  | str (s : String)
deriving DecidableEq, Repr

/-- A pandas DataFrame as with_error consumes it: a single flat index level
with a name, named data columns, and rows pairing an index value with the
column values. -/
structure DataFrame where
  indexName : String
  columns : List String
  rows : List (Cell × List Cell)
deriving DecidableEq, Repr

/-- A Python value reaching with_error or returned by the vendor SDK:
a DataFrame, a JSON-like scalar, or a tuple of values. -/
inductive PyData where
  | frame (df : DataFrame)
  | val (c : Cell)
  | tuple (xs : List PyData)

/-- df.reset_index(level=0).to_json(orient="records") then json.loads
(main.py line 68): each row becomes a record mapping field name to value,
with the flattened index level as the first field, then the data columns
in order. -/
def DataFrame.reset_index_records (df : DataFrame) : List (List (String × Cell)) :=
  df.rows.map (fun row => (df.indexName, row.1) :: df.columns.zip row.2)

/-- An error code: Python puts the string "429" or the integer -1 there. -/
inductive ErrCode where
  | s (v : String)
  | i (v : Int)
deriving DecidableEq, Repr

/-- The envelope error field: None, a code/message object, or a bare
string (the "Not autorized" literal of the handlers). -/
inductive ErrField where
  | null
  | obj (code : ErrCode) (message : String)
  | str (v : String)
deriving DecidableEq, Repr

/-- The 429 error object built at main.py line 65. -/
def quota_error : ErrField :=
  ErrField.obj (ErrCode.s "429") "Too many requests, please try again later."

/-- The envelope data field: None, a converted DataFrame as row records,
or a non-tabular value passed through unchanged. -/
inductive EnvData where
  | null
  | records (recs : List (List (String × Cell)))
  | passthrough (v : PyData)

/-- The uniform response envelope returned by every handler. -/
structure Envelope where
  data : EnvData
  error : ErrField

/-- The data-field conversion of with_error (main.py lines 67-71): a
DataFrame becomes row records, everything else passes through unchanged. -/
def convert_data (data : PyData) : EnvData :=
  match data with
  | PyData.frame df => EnvData.records df.reset_index_records
  | d => EnvData.passthrough d

/-- with_error (main.py lines 45-73), with the globals passed explicitly
and today's date an input. Resets the counter when the day-of-month
changed, stores today, builds the 429 error when the counter is at or
above the limit, increments the counter, converts the data, and returns
the new state with the envelope. -/
def with_error (today : Date) (st : QuotaState) (data : PyData) :
    QuotaState × Envelope :=
  let c0 : Nat := if today.day ≠ st.previous_date.day then 0 else st.request_counter
  let error : ErrField :=
    if MAXIMUM_NUMBER_OF_REQUESTS ≤ c0 then quota_error else ErrField.null
  (⟨today, c0 + 1⟩, ⟨convert_data data, error⟩)

/-- n successive with_error calls on the same date (the envelope of each
call discarded), threading the quota state. -/
def with_error_iter (today : Date) (data : PyData) : Nat → QuotaState → QuotaState
  | 0, st => st
  | Nat.succ n, st => with_error_iter today data n (with_error today st data).1

/-- The exception object raised by FastAPI's HTTPException. -/
structure HTTPException where
  status_code : Nat
  detail : String
deriving DecidableEq, Repr

/-- verify_token (main.py lines 26-42): given the request's Authorization
header (None when absent) and the EIKON_SECRET_KEY environment value
(None when unset), raise HTTPException 401 on mismatch, else return True. -/
def verify_token (authorization : Option String) (eikon_secret_key : Option String) :
    Except HTTPException Bool :=
  if authorization ≠ eikon_secret_key then
    Except.error ⟨401, "Unauthorized"⟩
  else
    Except.ok true

/-- The observable outcome of a handler invocation: an HTTP error raised
by the guard, or a 200 JSON body carrying an envelope. -/
inductive HandlerResponse where
  | http_error (status_code : Nat) (detail : String)
  | body (env : Envelope)

/-- The tuple unwrapping of handler_get_data (main.py lines 140-141):
"if data and len(data) == 2: data, _ = data". A tuple is truthy iff
non-empty, so a non-empty two-element tuple is replaced by its first
element; every other value continues unchanged. -/
def get_data_unwrap (data : PyData) : PyData :=
  match data with
  | PyData.tuple xs =>
      if xs.length ≠ 0 ∧ xs.length = 2 then xs.headD (PyData.val Cell.null)
      else PyData.tuple xs
  | d => d

/-- handler_get_data (main.py lines 77-142) after parameter parsing: the
guard runs first (Depends), a vendor failure is caught broadly and
converted to a code -1 error, a truthy two-element result tuple is
unwrapped to its first element, and the result goes to with_error. -/
def handler_get_data (authorization : Option String) (secret : Option String)
    (today : Date) (st : QuotaState)
    (ek_get_data : Except String PyData) : QuotaState × HandlerResponse :=
  match verify_token authorization secret with
  | Except.error e => (st, HandlerResponse.http_error e.status_code e.detail)
  | Except.ok authorized =>
    if !authorized then
      (st, HandlerResponse.body ⟨EnvData.null, ErrField.str "Not autorized"⟩)
    else
      match ek_get_data with
      | Except.error err =>
          (st, HandlerResponse.body ⟨EnvData.null, ErrField.obj (ErrCode.i (-1)) err⟩)
      | Except.ok data =>
          let r := with_error today st (get_data_unwrap data)
          (r.1, HandlerResponse.body r.2)

/-- handler_timeseries (main.py lines 327-429) after parameter parsing:
the guard runs first, a vendor failure is caught broadly and converted to
a code -1 error, and the result goes to with_error unchanged. -/
def handler_timeseries (authorization : Option String) (secret : Option String)
    (today : Date) (st : QuotaState)
    (ek_get_timeseries : Except String PyData) : QuotaState × HandlerResponse :=
  match verify_token authorization secret with
  | Except.error e => (st, HandlerResponse.http_error e.status_code e.detail)
  | Except.ok authorized =>
    if !authorized then
      (st, HandlerResponse.body ⟨EnvData.null, ErrField.str "Not autorized"⟩)
    else
      match ek_get_timeseries with
      | Except.error err =>
          (st, HandlerResponse.body ⟨EnvData.null, ErrField.obj (ErrCode.i (-1)) err⟩)
      | Except.ok data =>
          let r := with_error today st data
          (r.1, HandlerResponse.body r.2)

/-- On a same-day call with_error keeps the counter, increments it, and
reports 429 exactly when the old counter is at or above the limit. -/
theorem with_error_same_day (today : Date) (st : QuotaState) (d : PyData)
    (h : today.day = st.previous_date.day) :
    with_error today st d =
      (⟨today, st.request_counter + 1⟩,
       ⟨convert_data d,
        if MAXIMUM_NUMBER_OF_REQUESTS ≤ st.request_counter then quota_error
        else ErrField.null⟩) := by
  simp [with_error, h]

/-- n same-day calls starting at counter c leave the counter at c + n. -/
theorem with_error_iter_same_day (today : Date) (d : PyData) (n c : Nat) :
    with_error_iter today d n ⟨today, c⟩ = ⟨today, c + n⟩ := by
  induction n generalizing c with
  | zero => simp [with_error_iter]
  | succ n ih =>
    have h1 : (with_error today ⟨today, c⟩ d).1 = ⟨today, c + 1⟩ := by
      simp [with_error]
    rw [with_error_iter, h1, ih]
    congr 1
    omega

/-- C1: on a call with no day-of-month reset, the returned error is the
429 object iff the counter before the call is at least the 10000 limit
(and null iff it is below); the counter is incremented by exactly 1 on
every call, 429 or not; and starting from a counter of 0, each of the
first 10000 same-day calls returns a null error while the 10001st
returns the 429 error. -/
theorem C1_quota_429_iff_and_increment (today : Date) (st : QuotaState) (d : PyData)
    (h : today.day = st.previous_date.day) :
    ((with_error today st d).2.error = quota_error ↔
        MAXIMUM_NUMBER_OF_REQUESTS ≤ st.request_counter)
    ∧ ((with_error today st d).2.error = ErrField.null ↔
        st.request_counter < MAXIMUM_NUMBER_OF_REQUESTS)
    ∧ (with_error today st d).1.request_counter = st.request_counter + 1
    ∧ (∀ k, k < MAXIMUM_NUMBER_OF_REQUESTS →
        (with_error today (with_error_iter today d k ⟨today, 0⟩) d).2.error =
          ErrField.null)
    ∧ (with_error today (with_error_iter today d MAXIMUM_NUMBER_OF_REQUESTS
        ⟨today, 0⟩) d).2.error = quota_error := by
  refine ⟨?_, ?_, ?_, ?_, ?_⟩
  · rw [with_error_same_day today st d h]
    split <;> simp_all [quota_error]
  · rw [with_error_same_day today st d h]
    split <;> simp_all [quota_error]
  · rw [with_error_same_day today st d h]
  · intro k hk
    rw [with_error_iter_same_day today d k 0, Nat.zero_add,
      with_error_same_day today ⟨today, k⟩ d rfl]
    simp
    omega
  · rw [with_error_iter_same_day today d MAXIMUM_NUMBER_OF_REQUESTS 0, Nat.zero_add,
      with_error_same_day today ⟨today, MAXIMUM_NUMBER_OF_REQUESTS⟩ d rfl]
    simp

/-- Witness for C1 at a concrete same-day input. -/
theorem C1_witness :
    (Date.mk 2024 1 2).day = (QuotaState.mk (Date.mk 2023 11 2) 5).previous_date.day
    ∧ (with_error (Date.mk 2024 1 2) (QuotaState.mk (Date.mk 2023 11 2) 5)
        (PyData.val Cell.null)).1.request_counter =
        (QuotaState.mk (Date.mk 2023 11 2) 5).request_counter + 1 :=
  ⟨rfl, (C1_quota_429_iff_and_increment (Date.mk 2024 1 2)
    (QuotaState.mk (Date.mk 2023 11 2) 5) (PyData.val Cell.null) rfl).2.2.1⟩

/-- C2: with_error resets the counter to 0 iff today's day-of-month
differs from the stored date's day-of-month (full dates are never
compared: an equal day number means no reset even when the dates differ),
and after every call the stored date is today. The reset is observed
through the counter after the call: old counter + 1 without reset,
0 + 1 with reset. -/
theorem C2_day_of_month_reset (today : Date) (st : QuotaState) (d : PyData) :
    (with_error today st d).1.previous_date = today
    ∧ (today.day = st.previous_date.day →
        (with_error today st d).1.request_counter = st.request_counter + 1)
    ∧ (today.day ≠ st.previous_date.day →
        (with_error today st d).1.request_counter = 0 + 1) := by
  refine ⟨?_, ?_, ?_⟩
  · simp [with_error]
  · intro h
    simp [with_error, h]
  · intro h
    simp [with_error, h]

/-- Witness for C2 at a concrete input one month after the stored date
with the same day-of-month: the stored date changes yet no reset occurs. -/
theorem C2_witness :
    (with_error (Date.mk 2024 2 29) (QuotaState.mk (Date.mk 2024 1 29) 7)
      (PyData.val Cell.null)).1.previous_date = Date.mk 2024 2 29
    ∧ (with_error (Date.mk 2024 2 29) (QuotaState.mk (Date.mk 2024 1 29) 7)
        (PyData.val Cell.null)).1.request_counter = 7 + 1 :=
  ⟨(C2_day_of_month_reset (Date.mk 2024 2 29)
      (QuotaState.mk (Date.mk 2024 1 29) 7) (PyData.val Cell.null)).1,
   (C2_day_of_month_reset (Date.mk 2024 2 29)
      (QuotaState.mk (Date.mk 2024 1 29) 7) (PyData.val Cell.null)).2.1 rfl⟩

/-- The envelope error produced by with_error is either the 429 object or
null; in particular it is never a bare string. -/
theorem with_error_error_cases (today : Date) (st : QuotaState) (d : PyData) :
    (with_error today st d).2.error = quota_error ∨
    (with_error today st d).2.error = ErrField.null := by
  by_cases hd : today.day ≠ st.previous_date.day
  · by_cases h : MAXIMUM_NUMBER_OF_REQUESTS ≤ (0 : Nat)
    · left
      simp [with_error, hd, h]
    · right
      simp [with_error, hd, h]
  · by_cases h : MAXIMUM_NUMBER_OF_REQUESTS ≤ st.request_counter
    · left
      simp [with_error, hd, h]
    · right
      simp [with_error, hd, h]

/-- When the guard passes, handler_get_data wraps the unwrapped vendor
result with with_error. -/
theorem handler_get_data_ok (auth secret : Option String) (today : Date)
    (st : QuotaState) (d : PyData)
    (h : verify_token auth secret = Except.ok true) :
    handler_get_data auth secret today st (Except.ok d) =
      ((with_error today st (get_data_unwrap d)).1,
       HandlerResponse.body (with_error today st (get_data_unwrap d)).2) := by
  simp [handler_get_data, h]

/-- When the guard passes, handler_timeseries wraps the vendor result
with with_error. -/
theorem handler_timeseries_ok (auth secret : Option String) (today : Date)
    (st : QuotaState) (d : PyData)
    (h : verify_token auth secret = Except.ok true) :
    handler_timeseries auth secret today st (Except.ok d) =
      ((with_error today st d).1,
       HandlerResponse.body (with_error today st d).2) := by
  simp [handler_timeseries, h]

/-- verify_token succeeds exactly when header and secret agree, and then
it returns True. -/
theorem verify_token_ok_iff (authorization eikon_secret_key : Option String) :
    verify_token authorization eikon_secret_key = Except.ok true ↔
      authorization = eikon_secret_key := by
  simp only [verify_token]
  split <;> simp_all

/-- verify_token fails with the 401 exception exactly when header and
secret disagree. -/
theorem verify_token_error_iff (authorization eikon_secret_key : Option String) :
    verify_token authorization eikon_secret_key =
        Except.error ⟨401, "Unauthorized"⟩ ↔
      authorization ≠ eikon_secret_key := by
  simp only [verify_token]
  split <;> simp_all

/-- C3: with a configured secret, the guard authorizes iff the
Authorization header equals the secret exactly; on a mismatched or absent
header it raises the 401 exception, and then both modelled handlers
return the 401 response unchanged-state and independently of the vendor
outcome, so no vendor call is attempted and the quota state is untouched. -/
theorem C3_guard_exact_match (header : Option String) (secret : String) :
    (verify_token header (some secret) = Except.ok true ↔ header = some secret)
    ∧ (header ≠ some secret →
        verify_token header (some secret) = Except.error ⟨401, "Unauthorized"⟩
        ∧ (∀ (today : Date) (st : QuotaState) (v : Except String PyData),
            handler_get_data header (some secret) today st v =
              (st, HandlerResponse.http_error 401 "Unauthorized"))
        ∧ (∀ (today : Date) (st : QuotaState) (v : Except String PyData),
            handler_timeseries header (some secret) today st v =
              (st, HandlerResponse.http_error 401 "Unauthorized"))) := by
  refine ⟨verify_token_ok_iff header (some secret), ?_⟩
  intro hne
  have hv : verify_token header (some secret) =
      Except.error ⟨401, "Unauthorized"⟩ :=
    (verify_token_error_iff header (some secret)).mpr hne
  refine ⟨hv, ?_, ?_⟩
  · intro today st v
    simp [handler_get_data, hv]
  · intro today st v
    simp [handler_timeseries, hv]

/-- Witness for C3 at an absent header against a configured secret. -/
theorem C3_witness :
    (verify_token none (some "sec") = Except.ok true ↔
      (none : Option String) = some "sec")
    ∧ handler_get_data none (some "sec") (Date.mk 2024 1 1)
        (QuotaState.mk (Date.mk 2024 1 1) 3) (Except.ok (PyData.val Cell.null)) =
        (QuotaState.mk (Date.mk 2024 1 1) 3,
         HandlerResponse.http_error 401 "Unauthorized") :=
  ⟨(C3_guard_exact_match none "sec").1,
   ((C3_guard_exact_match none "sec").2 (by simp)).2.1 (Date.mk 2024 1 1)
     (QuotaState.mk (Date.mk 2024 1 1) 3) (Except.ok (PyData.val Cell.null))⟩

/-- C4: when the guard passes and the vendor SDK call raises with message
msg, both modelled handlers return the envelope with null data and the
code -1 error carrying msg, as a normal response body rather than a
propagated fault, and leave the quota state unchanged. -/
theorem C4_vendor_failure_envelope (auth secret : Option String) (today : Date)
    (st : QuotaState) (msg : String)
    (h : verify_token auth secret = Except.ok true) :
    handler_get_data auth secret today st (Except.error msg) =
      (st, HandlerResponse.body ⟨EnvData.null, ErrField.obj (ErrCode.i (-1)) msg⟩)
    ∧ handler_timeseries auth secret today st (Except.error msg) =
      (st, HandlerResponse.body ⟨EnvData.null, ErrField.obj (ErrCode.i (-1)) msg⟩) := by
  constructor
  · simp [handler_get_data, h]
  · simp [handler_timeseries, h]

/-- Witness for C4 at a concrete authorized request whose vendor call
raises. -/
theorem C4_witness :
    verify_token (some "k") (some "k") = Except.ok true
    ∧ handler_get_data (some "k") (some "k") (Date.mk 2024 1 2)
        (QuotaState.mk (Date.mk 2024 1 1) 5) (Except.error "boom") =
        (QuotaState.mk (Date.mk 2024 1 1) 5,
         HandlerResponse.body
           ⟨EnvData.null, ErrField.obj (ErrCode.i (-1)) "boom"⟩) :=
  ⟨by simp [verify_token],
   (C4_vendor_failure_envelope (some "k") (some "k") (Date.mk 2024 1 2)
     (QuotaState.mk (Date.mk 2024 1 1) 5) "boom" (by simp [verify_token])).1⟩

/-- C9: verify_token never returns False — it either raises the 401
exception or returns True — so in both modelled handlers the branch
answering a 200 body with the bare string error "Not autorized" is
unreachable for every input. -/
theorem C9_guard_never_false (auth secret : Option String) :
    verify_token auth secret ≠ Except.ok false
    ∧ (∀ (today : Date) (st : QuotaState) (v : Except String PyData),
        (handler_get_data auth secret today st v).2 ≠
          HandlerResponse.body ⟨EnvData.null, ErrField.str "Not autorized"⟩)
    ∧ (∀ (today : Date) (st : QuotaState) (v : Except String PyData),
        (handler_timeseries auth secret today st v).2 ≠
          HandlerResponse.body ⟨EnvData.null, ErrField.str "Not autorized"⟩) := by
  refine ⟨?_, ?_, ?_⟩
  · simp only [verify_token]
    split <;> simp
  · intro today st v
    by_cases hc : auth = secret
    · have hv : verify_token auth secret = Except.ok true :=
        (verify_token_ok_iff auth secret).mpr hc
      cases v with
      | error msg => simp [handler_get_data, hv]
      | ok d =>
        rw [handler_get_data_ok auth secret today st d hv]
        intro hbody
        rw [HandlerResponse.body.injEq] at hbody
        rcases with_error_error_cases today st (get_data_unwrap d) with hq | hn
        · rw [hbody] at hq
          simp [quota_error] at hq
        · rw [hbody] at hn
          simp at hn
    · have hv : verify_token auth secret =
          Except.error ⟨401, "Unauthorized"⟩ :=
        (verify_token_error_iff auth secret).mpr hc
      simp [handler_get_data, hv]
  · intro today st v
    by_cases hc : auth = secret
    · have hv : verify_token auth secret = Except.ok true :=
        (verify_token_ok_iff auth secret).mpr hc
      cases v with
      | error msg => simp [handler_timeseries, hv]
      | ok d =>
        rw [handler_timeseries_ok auth secret today st d hv]
        intro hbody
        rw [HandlerResponse.body.injEq] at hbody
        rcases with_error_error_cases today st d with hq | hn
        · rw [hbody] at hq
          simp [quota_error] at hq
        · rw [hbody] at hn
          simp at hn
    · have hv : verify_token auth secret =
          Except.error ⟨401, "Unauthorized"⟩ :=
        (verify_token_error_iff auth secret).mpr hc
      simp [handler_timeseries, hv]

/-- with_error always changes the quota state: the counter moves from c
to c + 1 on a same-day call and the stored date changes otherwise. -/
theorem with_error_state_ne (today : Date) (st : QuotaState) (d : PyData) :
    (with_error today st d).1 ≠ st := by
  by_cases hd : today.day ≠ st.previous_date.day
  · intro heq
    have h1 : today = st.previous_date := by
      simpa [with_error] using congrArg QuotaState.previous_date heq
    rw [h1] at hd
    exact hd rfl
  · intro heq
    have h2 : st.request_counter + 1 = st.request_counter := by
      simpa [with_error, hd] using congrArg QuotaState.request_counter heq
    omega

/-- C5 counterexample: an authorized handler invocation whose vendor call
raises leaves the quota state exactly as it was, refuting that the quota
state is mutated by every handler invocation. -/
theorem C5_counterexample :
    (handler_get_data (some "k") (some "k") (Date.mk 2024 1 2)
      (QuotaState.mk (Date.mk 2024 1 1) 5) (Except.error "boom")).1 =
      QuotaState.mk (Date.mk 2024 1 1) 5 := by
  simp [handler_get_data, verify_token]

/-- C5 (amended): the quota state is mutated by every authorized handler
invocation in which the vendor call succeeds — the resulting state always
differs from the previous one — and is left unchanged when the vendor
call raises. -/
theorem C5_mutation_on_success_only (auth secret : Option String) (today : Date)
    (st : QuotaState) (d : PyData) (msg : String)
    (h : verify_token auth secret = Except.ok true) :
    (handler_get_data auth secret today st (Except.ok d)).1 ≠ st
    ∧ (handler_timeseries auth secret today st (Except.ok d)).1 ≠ st
    ∧ (handler_get_data auth secret today st (Except.error msg)).1 = st
    ∧ (handler_timeseries auth secret today st (Except.error msg)).1 = st := by
  refine ⟨?_, ?_, ?_, ?_⟩
  · rw [handler_get_data_ok auth secret today st d h]
    exact with_error_state_ne today st (get_data_unwrap d)
  · rw [handler_timeseries_ok auth secret today st d h]
    exact with_error_state_ne today st d
  · simp [handler_get_data, h]
  · simp [handler_timeseries, h]

/-- Witness for the amended C5 at concrete inputs: a successful vendor
call changes the state, a raising one does not. -/
theorem C5_witness :
    verify_token (some "s") (some "s") = Except.ok true
    ∧ (handler_get_data (some "s") (some "s") (Date.mk 2024 1 2)
        (QuotaState.mk (Date.mk 2024 1 1) 5) (Except.ok (PyData.val Cell.null))).1 ≠
        QuotaState.mk (Date.mk 2024 1 1) 5
    ∧ (handler_timeseries (some "s") (some "s") (Date.mk 2024 1 2)
        (QuotaState.mk (Date.mk 2024 1 1) 5) (Except.error "down")).1 =
        QuotaState.mk (Date.mk 2024 1 1) 5 :=
  ⟨by simp [verify_token],
   (C5_mutation_on_success_only (some "s") (some "s") (Date.mk 2024 1 2)
     (QuotaState.mk (Date.mk 2024 1 1) 5) (PyData.val Cell.null) "down"
     (by simp [verify_token])).1,
   (C5_mutation_on_success_only (some "s") (some "s") (Date.mk 2024 1 2)
     (QuotaState.mk (Date.mk 2024 1 1) 5) (PyData.val Cell.null) "down"
     (by simp [verify_token])).2.2.2⟩

/-- C6: the quota never blocks the vendor call: whenever the guard
passes, the handler response is exactly the with_error wrapping of the
vendor result whatever the counter holds; and on a same-day call with
the counter at or above the limit, the body still carries the converted
vendor result in its data field alongside the non-null 429 error. -/
theorem C6_quota_never_blocks (auth secret : Option String) (today : Date)
    (st : QuotaState) (d : PyData)
    (h : verify_token auth secret = Except.ok true) :
    handler_timeseries auth secret today st (Except.ok d) =
      ((with_error today st d).1, HandlerResponse.body (with_error today st d).2)
    ∧ (today.day = st.previous_date.day →
        MAXIMUM_NUMBER_OF_REQUESTS ≤ st.request_counter →
        (handler_timeseries auth secret today st (Except.ok d)).2 =
          HandlerResponse.body ⟨convert_data d, quota_error⟩) := by
  refine ⟨handler_timeseries_ok auth secret today st d h, ?_⟩
  intro hd hc
  rw [handler_timeseries_ok auth secret today st d h,
    with_error_same_day today st d hd]
  simp [hc]

/-- Witness for C6 at a concrete input with the counter at the limit: the
response carries both the vendor data and the 429 error. -/
theorem C6_witness :
    verify_token (some "t") (some "t") = Except.ok true
    ∧ (handler_timeseries (some "t") (some "t") (Date.mk 2024 5 5)
        (QuotaState.mk (Date.mk 2024 5 5) 10000)
        (Except.ok (PyData.val (Cell.int 7)))).2 =
        HandlerResponse.body ⟨convert_data (PyData.val (Cell.int 7)), quota_error⟩ :=
  ⟨by simp [verify_token],
   (C6_quota_never_blocks (some "t") (some "t") (Date.mk 2024 5 5)
     (QuotaState.mk (Date.mk 2024 5 5) 10000) (PyData.val (Cell.int 7))
     (by simp [verify_token])).2 rfl (by decide)⟩

/-- C7: when the guard passes and the vendor result is a two-element
tuple of data and metadata, handler_get_data passes only the first
element on to with_error and discards the second. -/
theorem C7_metadata_discarded (auth secret : Option String) (today : Date)
    (st : QuotaState) (a b : PyData)
    (h : verify_token auth secret = Except.ok true) :
    handler_get_data auth secret today st (Except.ok (PyData.tuple [a, b])) =
      ((with_error today st a).1, HandlerResponse.body (with_error today st a).2) := by
  rw [handler_get_data_ok auth secret today st (PyData.tuple [a, b]) h]
  simp [get_data_unwrap]

/-- Witness for C7 at a concrete data/metadata pair. -/
theorem C7_witness :
    verify_token (some "w") (some "w") = Except.ok true
    ∧ handler_get_data (some "w") (some "w") (Date.mk 2024 1 3)
        (QuotaState.mk (Date.mk 2024 1 3) 2)
        (Except.ok (PyData.tuple [PyData.val (Cell.int 1),
          PyData.val (Cell.str "meta")])) =
        ((with_error (Date.mk 2024 1 3) (QuotaState.mk (Date.mk 2024 1 3) 2)
            (PyData.val (Cell.int 1))).1,
         HandlerResponse.body (with_error (Date.mk 2024 1 3)
            (QuotaState.mk (Date.mk 2024 1 3) 2) (PyData.val (Cell.int 1))).2) :=
  ⟨by simp [verify_token],
   C7_metadata_discarded (some "w") (some "w") (Date.mk 2024 1 3)
     (QuotaState.mk (Date.mk 2024 1 3) 2) (PyData.val (Cell.int 1))
     (PyData.val (Cell.str "meta")) (by simp [verify_token])⟩

/-- C8: with_error converts a DataFrame to the ordered list of row
records with the flattened index level as the first field and the data
columns following in order, and places every non-DataFrame value in the
envelope's data field unchanged. -/
theorem C8_tabular_conversion (today : Date) (st : QuotaState) :
    (∀ df : DataFrame,
      (with_error today st (PyData.frame df)).2.data =
        EnvData.records (df.rows.map
          (fun row => (df.indexName, row.1) :: df.columns.zip row.2)))
    ∧ (∀ d : PyData, (∀ df : DataFrame, d ≠ PyData.frame df) →
        (with_error today st d).2.data = EnvData.passthrough d) := by
  constructor
  · intro df
    simp [with_error, convert_data, DataFrame.reset_index_records]
  · intro d hd
    cases d with
    | frame df => exact absurd rfl (hd df)
    | val c => simp [with_error, convert_data]
    | tuple xs => simp [with_error, convert_data]

/-- Witness for C8 at a one-row DataFrame and at a scalar value. -/
theorem C8_witness :
    (with_error (Date.mk 2024 1 2) (QuotaState.mk (Date.mk 2024 1 2) 3)
      (PyData.frame (DataFrame.mk "Instrument" ["CLOSE", "VOLUME"]
        [(Cell.str "AAPL", [Cell.int 190, Cell.int 12])]))).2.data =
      EnvData.records [[("Instrument", Cell.str "AAPL"),
        ("CLOSE", Cell.int 190), ("VOLUME", Cell.int 12)]]
    ∧ (with_error (Date.mk 2024 1 2) (QuotaState.mk (Date.mk 2024 1 2) 3)
        (PyData.val (Cell.str "story text"))).2.data =
        EnvData.passthrough (PyData.val (Cell.str "story text")) :=
  ⟨(C8_tabular_conversion (Date.mk 2024 1 2)
      (QuotaState.mk (Date.mk 2024 1 2) 3)).1
      (DataFrame.mk "Instrument" ["CLOSE", "VOLUME"]
        [(Cell.str "AAPL", [Cell.int 190, Cell.int 12])]),
   (C8_tabular_conversion (Date.mk 2024 1 2)
      (QuotaState.mk (Date.mk 2024 1 2) 3)).2
      (PyData.val (Cell.str "story text"))
      (fun _ h => PyData.noConfusion h)⟩

/-- Every month has at least 28 days. -/
theorem le_daysInMonth (y m : Nat) : 28 ≤ daysInMonth y m := by
  unfold daysInMonth
  split
  · split <;> omega
  · split <;> omega

/-- For a valid date, the previous day has a different day-of-month. -/
theorem yesterday_day_ne (d : Date) (h : d.valid) :
    d.yesterday.day ≠ d.day := by
  obtain ⟨hm1, hm2, hd1, hd2⟩ := h
  unfold Date.yesterday
  by_cases h1 : 1 < d.day
  · simp only [h1, if_true]
    omega
  · by_cases h2 : 1 < d.month
    · simp only [h1, if_false, h2, if_true]
      have := le_daysInMonth d.year (d.month - 1)
      omega
    · simp only [h1, if_false, h2]
      omega

/-- C10: at startup the counter equals the 10000 limit and the stored
date is the day before startup; hence the first with_error call, when it
happens on the startup day, takes the reset branch and returns a null
error with the counter at 1, while a first call on a date sharing the
stored date's day-of-month skips the reset and returns the 429 error. -/
theorem C10_startup_first_call (startup : Date) (d : PyData)
    (h : startup.valid) :
    (initial_state startup).request_counter = MAXIMUM_NUMBER_OF_REQUESTS
    ∧ (initial_state startup).previous_date = startup.yesterday
    ∧ (with_error startup (initial_state startup) d).2.error = ErrField.null
    ∧ (with_error startup (initial_state startup) d).1.request_counter = 1
    ∧ (∀ t : Date, t.day = startup.yesterday.day →
        (with_error t (initial_state startup) d).2.error = quota_error) := by
  have hne : startup.day ≠ startup.yesterday.day :=
    fun he => yesterday_day_ne startup h he.symm
  refine ⟨rfl, rfl, ?_, ?_, ?_⟩
  · simp [with_error, initial_state, hne, MAXIMUM_NUMBER_OF_REQUESTS]
  · simp [with_error, initial_state, hne]
  · intro t ht
    simp [with_error, initial_state, ht, MAXIMUM_NUMBER_OF_REQUESTS]

/-- Witness for C10 at a concrete startup date just after a month
boundary. -/
theorem C10_witness :
    (Date.mk 2024 3 1).valid
    ∧ (with_error (Date.mk 2024 3 1) (initial_state (Date.mk 2024 3 1))
        (PyData.val Cell.null)).2.error = ErrField.null
    ∧ (with_error (Date.mk 2024 3 1) (initial_state (Date.mk 2024 3 1))
        (PyData.val Cell.null)).1.request_counter = 1 :=
  ⟨by decide,
   (C10_startup_first_call (Date.mk 2024 3 1) (PyData.val Cell.null)
     (by decide)).2.2.1,
   (C10_startup_first_call (Date.mk 2024 3 1) (PyData.val Cell.null)
     (by decide)).2.2.2.1⟩

end EikonServer
